import Mathlib

/-!
Formal model of the filtering and aggregation engine of the
road-accident analytics dashboard.

Numeric CSV cells are modelled as `Option ℚ`: `none` is the pandas `NaN`
sentinel produced by `pd.to_numeric(..., errors='coerce')` for unparseable
text, and more generally any non-finite float (NaN, ±inf).  Any comparison
against `none` is `false`, mirroring IEEE NaN comparison semantics used by
pandas boolean indexing.
-/

/-- One raw CSV row as read by `load_data` (src/data_loader.py), after the
`pd.to_numeric(..., errors='coerce')` pass over the declared numeric
columns: numeric cells are `Option ℚ` (`none` = unparseable → NaN), the
`Month` cell is kept as raw text, `Year` as an integer. -/
structure RawRow where
  accident_severity : String
  month : String
  year : Int
  number_of_vehicles_involved : Option ℚ
  number_of_injuries : Option ℚ
  number_of_fatalities : Option ℚ
  emergency_response_time : Option ℚ
  pedestrians_involved : Option ℚ
  cyclists_involved : Option ℚ
  accident_cause : String
  medical_cost : Option ℚ
  economic_loss : Option ℚ
  deriving Repr, DecidableEq

/-- One row of the loaded dataframe: the raw columns plus the derived
`Date` column.  `date` is `some (year, monthNumber)` (day is always 1)
when the month name mapped; `none` models an unmapped month.  In the
actual loader an unmapped month makes `pd.to_datetime` raise, so rows
with `date = none` never appear in a successfully loaded dataframe. -/
structure Record where
  accident_severity : String
  month : String
  year : Int
  date : Option (Int × Nat)
  number_of_vehicles_involved : Option ℚ
  number_of_injuries : Option ℚ
  number_of_fatalities : Option ℚ
  emergency_response_time : Option ℚ
  pedestrians_involved : Option ℚ
  cyclists_involved : Option ℚ
  accident_cause : String
  medical_cost : Option ℚ
  economic_loss : Option ℚ
  deriving Repr, DecidableEq

/-- The `month_map` dictionary of `load_data`: the twelve canonical English
month names, case-sensitive exact match; anything else maps to `none`
(pandas `Series.map` yields NaN). -/
def month_map (m : String) : Option Nat :=
  match m with
  | "January" => some 1
  | "February" => some 2
  | "March" => some 3
  | "April" => some 4
  | "May" => some 5
  | "June" => some 6
  | "July" => some 7
  | "August" => some 8
  | "September" => some 9
  | "October" => some 10
  | "November" => some 11
  | "December" => some 12
  | _ => none

/-- Builds one dataframe row from a raw row: copies every column and
derives `Date` from `Year` and `month_map Month` (first day of month). -/
def toRecord (r : RawRow) : Record :=
  { accident_severity := r.accident_severity
    month := r.month
    year := r.year
    date := (month_map r.month).map (fun mn => (r.year, mn))
    number_of_vehicles_involved := r.number_of_vehicles_involved
    number_of_injuries := r.number_of_injuries
    number_of_fatalities := r.number_of_fatalities
    emergency_response_time := r.emergency_response_time
    pedestrians_involved := r.pedestrians_involved
    cyclists_involved := r.cyclists_involved
    accident_cause := r.accident_cause
    medical_cost := r.medical_cost
    economic_loss := r.economic_loss }

/-- `load_data` (src/data_loader.py).  The numeric coercion never fails
(bad cells already became `none` in `RawRow`), but the `Date` derivation
`pd.to_datetime(Year + '-' + Month.map(month_map) + '-01')` raises as soon
as any row's month is unmapped (the mapped column then contains NaN and the
assembled string is unparseable); the surrounding `try/except` turns any
exception into a `None` result.  So the load succeeds iff every row's
month name is canonical, and otherwise returns `none` for the whole
dataframe. -/
def load_data (rows : List RawRow) : Option (List Record) :=
  if rows.all (fun r => (month_map r.month).isSome) then
    some (rows.map toRecord)
  else
    none

/-- The seven-field filter dictionary built by the sidebar
(src/components/filters.py). -/
structure Filters where
  severity : List String
  vehicles_range : ℚ × ℚ
  pedestrians : Bool
  cyclists : Bool
  casualties_range : ℚ × ℚ
  response_time_range : ℚ × ℚ
  causes : List String
  deriving Repr, DecidableEq

/-- The neutral filter state installed by `initialize_filters`
(src/components/filters.py): empty severity and cause sets, full-domain
sliders, both participant toggles off. -/
def neutral_filters : Filters :=
  { severity := []
    vehicles_range := (1, 4)
    pedestrians := false
    cyclists := false
    casualties_range := (0, 23)
    response_time_range := (5, 60)
    causes := [] }

/-- Pandas-style inclusive range test `(x >= lo) & (x <= hi)` on a cell
that may be NaN: a missing value fails both comparisons. -/
def inRange (rng : ℚ × ℚ) : Option ℚ → Bool
  | some x => decide (rng.1 ≤ x) && decide (x ≤ rng.2)
  | none => false

/-- Pandas addition of two cells: NaN propagates. -/
def optAdd : Option ℚ → Option ℚ → Option ℚ
  | some a, some b => some (a + b)
  | _, _ => none

/-- `filtered_df['Accident Severity'].isin(filters['severity'])`. -/
def sevPred (sev : List String) (r : Record) : Bool :=
  sev.contains r.accident_severity

/-- Vehicles-involved range test of `filter_data`. -/
def vehPred (rng : ℚ × ℚ) (r : Record) : Bool :=
  inRange rng r.number_of_vehicles_involved

/-- `filtered_df['Pedestrians Involved'] > 0`. -/
def pedPred (r : Record) : Bool :=
  match r.pedestrians_involved with
  | some x => decide (0 < x)
  | none => false

/-- `filtered_df['Cyclists Involved'] > 0`. -/
def cycPred (r : Record) : Bool :=
  match r.cyclists_involved with
  | some x => decide (0 < x)
  | none => false

/-- Casualties range test of `filter_data`: `Number of Injuries +
Number of Fatalities` compared inclusively; NaN in either summand
propagates and fails. -/
def casPred (rng : ℚ × ℚ) (r : Record) : Bool :=
  inRange rng (optAdd r.number_of_injuries r.number_of_fatalities)

/-- Emergency-response-time range test of `filter_data`. -/
def respPred (rng : ℚ × ℚ) (r : Record) : Bool :=
  inRange rng r.emergency_response_time

/-- `filtered_df['Accident Cause'].isin(filters['causes'])`. -/
def causePred (causes : List String) (r : Record) : Bool :=
  causes.contains r.accident_cause

/-- `filter_data` (src/data_loader.py): returns `None` when the dataframe
is `None`, otherwise applies the six filter stages in source order.  The
`severity` and `causes` stages run only when their list is non-empty
(Python truthiness of a list); the `pedestrians`/`cyclists` stages only
when the toggle is on; the three range stages always run because a tuple
is always truthy. -/
def filter_data (df : Option (List Record)) (filters : Filters) :
    Option (List Record) :=
  match df with
  | none => none
  | some rows =>
    let d1 := if filters.severity.isEmpty then rows
              else rows.filter (sevPred filters.severity)
    let d2 := d1.filter (vehPred filters.vehicles_range)
    let d3 := if filters.pedestrians then d2.filter pedPred else d2
    let d4 := if filters.cyclists then d3.filter cycPred else d3
    let d5 := d4.filter (casPred filters.casualties_range)
    let d6 := d5.filter (respPred filters.response_time_range)
    let d7 := if filters.causes.isEmpty then d6
              else d6.filter (causePred filters.causes)
    some d7

/-- The conjunction of all per-row predicates `filter_data` applies for a
given filter state (a stage that is skipped contributes `true`). -/
def rowPred (f : Filters) (r : Record) : Bool :=
  (f.severity.isEmpty || sevPred f.severity r) &&
  vehPred f.vehicles_range r &&
  (!f.pedestrians || pedPred r) &&
  (!f.cyclists || cycPred r) &&
  casPred f.casualties_range r &&
  respPred f.response_time_range r &&
  (f.causes.isEmpty || causePred f.causes r)

/-- Length of an optional row list (a `None` dataframe has no rows). -/
def optLen (df : Option (List Record)) : Nat :=
  match df with
  | none => 0
  | some rows => rows.length

/-- Pandas column sum with default `skipna=True`: missing cells are
skipped, and an all-missing (or empty) column sums to 0. -/
def optSum (xs : List (Option ℚ)) : ℚ :=
  (xs.filterMap id).foldr (· + ·) 0

/-- Pandas column mean with default `skipna=True`: the mean of the present
cells; an all-missing (or empty) column has mean NaN, modelled `none`. -/
def optMean (xs : List (Option ℚ)) : Option ℚ :=
  let present := xs.filterMap id
  if present.isEmpty then none
  else some (present.foldr (· + ·) 0 / present.length)

/-- The five entries of the dictionary built by `calculate_summary_stats`
(src/utils/data_processing.py). -/
structure SummaryStats where
  total_accidents : Nat
  total_fatalities : ℚ
  total_injuries : ℚ
  avg_response_time : Option ℚ
  total_economic_loss : ℚ
  deriving Repr, DecidableEq

/-- `calculate_summary_stats` (src/utils/data_processing.py): returns the
empty dictionary `{}` — modelled as `none` — when the dataframe is `None`
or empty; otherwise the five-entry dictionary of count, sums and mean. -/
def calculate_summary_stats (df : Option (List Record)) :
    Option SummaryStats :=
  match df with
  | none => none
  | some rows =>
    if rows.isEmpty then none
    else some
      { total_accidents := rows.length
        total_fatalities := optSum (rows.map (fun r => r.number_of_fatalities))
        total_injuries := optSum (rows.map (fun r => r.number_of_injuries))
        avg_response_time :=
          optMean (rows.map (fun r => r.emergency_response_time))
        total_economic_loss := optSum (rows.map (fun r => r.economic_loss)) }

/-- Pandas element-wise division of two cells: NaN in either operand
propagates, and a zero divisor produces a non-finite float (±inf or NaN),
which is likewise modelled as `none` (a value that is not any rational
number and in particular not 0). -/
def pdDiv (a b : Option ℚ) : Option ℚ :=
  match a, b with
  | some x, some y => if y = 0 then none else some (x / y)
  | _, _ => none

/-- One row of the dataframe built by `calculate_rates`. -/
structure RateRow where
  fatality_rate : Option ℚ
  injury_rate : Option ℚ
  severity_index : Option ℚ
  deriving Repr, DecidableEq

/-- The three columns `calculate_rates` computes for one row, with `n` the
length of the whole (filtered) dataframe: `fatality_rate = fatalities /
vehicles`, `injury_rate = injuries / vehicles`, `severity_index =
(fatalities*5 + injuries) / n`. -/
def rateRow (n : Nat) (r : Record) : RateRow :=
  { fatality_rate :=
      pdDiv r.number_of_fatalities r.number_of_vehicles_involved
    injury_rate :=
      pdDiv r.number_of_injuries r.number_of_vehicles_involved
    severity_index :=
      match r.number_of_fatalities, r.number_of_injuries with
      | some f, some j => some ((f * 5 + j) / (n : ℚ))
      | _, _ => none }

/-- `calculate_rates` (src/utils/data_processing.py): empty dataframe for
a `None` or empty input, otherwise one `RateRow` per input row, aligned by
position, with the dataset-wide row count as the `severity_index`
denominator. -/
def calculate_rates (df : Option (List Record)) : List RateRow :=
  match df with
  | none => []
  | some rows =>
    if rows.isEmpty then []
    else rows.map (rateRow rows.length)

/-- The accidents-count variation metric of `render_temporal_page`
(src/pages/temporal.py): percent change of the number of rows between the
previous-year and current-year slices, guarded by
`if len(previous_data) > 0 else 0`. -/
def variation_accidents (current_data previous_data : List Record) : ℚ :=
  if previous_data.length > 0 then
    ((current_data.length : ℚ) - (previous_data.length : ℚ)) /
      (previous_data.length : ℚ) * 100
  else 0

/-- The fatalities variation metric of `render_temporal_page`
(src/pages/temporal.py): percent change of the fatalities sums, guarded by
`if previous_fatalities > 0 else 0`. -/
def variation_fatalities (current_data previous_data : List Record) : ℚ :=
  let current_fatalities :=
    optSum (current_data.map (fun r => r.number_of_fatalities))
  let previous_fatalities :=
    optSum (previous_data.map (fun r => r.number_of_fatalities))
  if previous_fatalities > 0 then
    (current_fatalities - previous_fatalities) / previous_fatalities * 100
  else 0

/-- The medical-cost KPI variation of `render_financial_page`
(src/pages/financial.py): `(total_cost - previous_sum) / previous_sum *
100` with no zero guard; when the previous sum is 0 the float division
yields ±inf or NaN (never an exception, never 0), modelled as `none`. -/
def kpi_variation_medical (filtered_df previous_df : List Record) :
    Option ℚ :=
  let total_cost := optSum (filtered_df.map (fun r => r.medical_cost))
  let previous_sum := optSum (previous_df.map (fun r => r.medical_cost))
  if previous_sum = 0 then none
  else some ((total_cost - previous_sum) / previous_sum * 100)

/-- `a` is a narrower inclusive range than `b`. -/
def narrower (a b : ℚ × ℚ) : Prop := b.1 ≤ a.1 ∧ a.2 ≤ b.2

/-- `f'` restricts `f` in exactly one field, in the senses that are
actually restrictions for `filter_data`: a narrower range, a participant
toggle switched on, or elements added to a previously empty set (adding to
a non-empty set loosens the `isin` constraint instead). -/
def Restricted (f f' : Filters) : Prop :=
  (f.severity = [] ∧ ∃ s, f' = { f with severity := s }) ∨
  (∃ v, narrower v f.vehicles_range ∧ f' = { f with vehicles_range := v }) ∨
  (f.pedestrians = false ∧ f' = { f with pedestrians := true }) ∨
  (f.cyclists = false ∧ f' = { f with cyclists := true }) ∨
  (∃ c, narrower c f.casualties_range ∧
    f' = { f with casualties_range := c }) ∨
  (∃ t, narrower t f.response_time_range ∧
    f' = { f with response_time_range := t }) ∨
  (f.causes = [] ∧ ∃ c, f' = { f with causes := c })

/-- A fully populated, well-formed row: every numeric cell present and
inside the neutral slider ranges. -/
def recOk : Record :=
  { accident_severity := "Severe"
    month := "January"
    year := 2024
    date := some (2024, 1)
    number_of_vehicles_involved := some 2
    number_of_injuries := some 3
    number_of_fatalities := some 1
    emergency_response_time := some 12
    pedestrians_involved := some 0
    cyclists_involved := some 0
    accident_cause := "Speeding"
    medical_cost := some 1000
    economic_loss := some 5000 }

/-- A row whose Emergency Response Time cell is the missing sentinel
(NaN); all other numeric cells are present and inside the neutral
ranges. -/
def recNoRT : Record :=
  { recOk with
    accident_severity := "Minor"
    emergency_response_time := none }

/-- A "Minor" severity row passing all three always-applied range
stages. -/
def recMinor : Record :=
  { recOk with
    accident_severity := "Minor"
    number_of_vehicles_involved := some 1
    number_of_injuries := some 0
    number_of_fatalities := some 0
    emergency_response_time := some 10
    accident_cause := "Weather" }

/-- A row with zero vehicles involved (division by zero in the rates). -/
def recVeh0 : Record :=
  { recOk with number_of_vehicles_involved := some 0 }

/-- A row whose numeric cells are all missing. -/
def recAllMissing : Record :=
  { recOk with
    number_of_vehicles_involved := none
    number_of_injuries := none
    number_of_fatalities := none
    emergency_response_time := none
    pedestrians_involved := none
    cyclists_involved := none
    medical_cost := none
    economic_loss := none }

/-- A raw CSV row with a canonical month name. -/
def rawJan : RawRow :=
  { accident_severity := "Severe"
    month := "January"
    year := 2024
    number_of_vehicles_involved := some 2
    number_of_injuries := some 3
    number_of_fatalities := some 1
    emergency_response_time := some 12
    pedestrians_involved := some 0
    cyclists_involved := some 0
    accident_cause := "Speeding"
    medical_cost := some 1000
    economic_loss := some 5000 }

/-- A raw CSV row whose month name is not one of the twelve canonical
English names. -/
def rawBadMonth : RawRow :=
  { rawJan with month := "Janvier" }

theorem filter_data_some (rows : List Record) (f : Filters) :
    filter_data (some rows) f = some (rows.filter (rowPred f)) := by
  unfold filter_data
  cases hs : f.severity.isEmpty <;>
    cases hp : f.pedestrians <;>
      cases hc : f.cyclists <;>
        cases hz : f.causes.isEmpty <;>
          · simp only [hs, hp, hc, hz, if_true, if_false, Bool.false_eq_true,
              List.filter_filter]
            refine congrArg some (List.filter_congr ?_)
            intro r _
            simp [rowPred, hs, hp, hc, hz, Bool.and_assoc, Bool.and_comm,
              Bool.and_left_comm]

/-- A filter stage with a pointwise stronger predicate keeps at most as
many rows. -/
theorem length_filter_le_of_imp {α : Type} (l : List α) (p q : α → Bool)
    (h : ∀ x ∈ l, q x = true → p x = true) :
    (l.filter q).length ≤ (l.filter p).length := by
  induction l with
  | nil => simp
  | cons a t ih =>
    have ht : ∀ x ∈ t, q x = true → p x = true :=
      fun x hx => h x (List.mem_cons_of_mem a hx)
    cases hq : q a with
    | true =>
      have hp : p a = true := h a (List.mem_cons_self a t) hq
      simpa [List.filter_cons, hq, hp] using ih ht
    | false =>
      cases hp : p a with
      | true =>
        simp only [List.filter_cons, hq, hp, if_pos, if_neg, Bool.false_eq_true,
          List.length_cons]
        exact le_trans (ih ht) (Nat.le_succ _)
      | false => simpa [List.filter_cons, hq, hp] using ih ht

/-- Narrowing a range only removes matches. -/
theorem inRange_mono {a b : ℚ × ℚ} (h : narrower a b) (v : Option ℚ)
    (hv : inRange a v = true) : inRange b v = true := by
  cases v with
  | none => simp [inRange] at hv
  | some x =>
    simp only [inRange, Bool.and_eq_true, decide_eq_true_eq] at hv ⊢
    exact ⟨le_trans h.1 hv.1, le_trans hv.2 h.2⟩

/-- C10: for every filter specification, `filter_data` applied to a `None`
dataframe (the loader's failure result) returns `None` itself — it neither
raises nor returns an empty dataframe — so the loader's failure sentinel
passes through the filtering interface unchanged. -/
theorem C10_none_passthrough (f : Filters) :
    filter_data none f = none ∧ filter_data none f ≠ some [] := by
  exact ⟨rfl, by simp [filter_data]⟩

/-- C9: `filter_data` is pure on the row sequence: for every dataset and
filter specification it returns a sequence that is a sublist of the input,
i.e. every surviving row is a row of the input and the surviving rows keep
the relative order they had in the input. -/
theorem C9_filter_preserves_order (rows : List Record) (f : Filters) :
    ∃ out, filter_data (some rows) f = some out ∧ List.Sublist out rows :=
  ⟨rows.filter (rowPred f), filter_data_some rows f,
    List.filter_sublist rows⟩

/-- C3 counterexample: a source containing one row with a perfectly
canonical month and one row with the unrecognized month name "Janvier"
does not load with the bad row retained — the whole load fails and
returns the `None` sentinel. -/
theorem C3_counterexample :
    load_data [rawJan, rawBadMonth] = none := by
  simp [load_data, rawJan, rawBadMonth, month_map]

/-- C3 amended: one unrecognized month name anywhere in the source makes
`pd.to_datetime` raise, so `load_data` fails as a whole and returns the
`None` failure sentinel (no row is retained with an invalid date). -/
theorem C3_bad_month_fails_load (rows : List RawRow) (r : RawRow)
    (hmem : r ∈ rows) (hbad : month_map r.month = none) :
    load_data rows = none := by
  unfold load_data
  rw [if_neg]
  intro hall
  have := List.all_eq_true.mp hall r hmem
  rw [hbad] at this
  simp at this

/-- C3 witness: the amended theorem applied to the concrete two-row
source. -/
theorem C3_bad_month_fails_load_witness :
    load_data [rawJan, rawBadMonth] = none ∧ rawBadMonth.month = "Janvier" :=
  ⟨C3_bad_month_fails_load [rawJan, rawBadMonth] rawBadMonth
    (by simp) (by rfl), rfl⟩

/-- C4 counterexample: on the empty dataframe `calculate_summary_stats`
returns the empty dictionary `{}` (modelled `none`): the result carries
none of the numeric fields, rather than carrying all of them set to a
zero/no-data sentinel. -/
theorem C4_counterexample :
    calculate_summary_stats (some ([] : List Record)) = none := rfl

/-- C4 amended: for every non-empty dataframe the summary dictionary is
present and its count entry equals the number of rows; for the empty
dataframe no exception is raised but the result is the empty dictionary
`{}`, which carries no numeric fields at all. -/
theorem C4_count_consistency (rows : List Record) (h : rows ≠ []) :
    (∃ s, calculate_summary_stats (some rows) = some s ∧
      s.total_accidents = rows.length) ∧
    calculate_summary_stats (some ([] : List Record)) = none := by
  have hne : rows.isEmpty = false := by
    cases rows with
    | nil => exact absurd rfl h
    | cons a t => rfl
  have hcal : calculate_summary_stats (some rows) = some
      { total_accidents := rows.length
        total_fatalities := optSum (rows.map fun r => r.number_of_fatalities)
        total_injuries := optSum (rows.map fun r => r.number_of_injuries)
        avg_response_time :=
          optMean (rows.map fun r => r.emergency_response_time)
        total_economic_loss := optSum (rows.map fun r => r.economic_loss) } := by
    simp [calculate_summary_stats, hne]
  exact ⟨⟨_, hcal, rfl⟩, rfl⟩

/-- C4 witness: the amended theorem applied to a concrete one-row
dataframe. -/
theorem C4_count_consistency_witness :
    (∃ s, calculate_summary_stats (some [recOk]) = some s ∧
      s.total_accidents = [recOk].length) ∧
    calculate_summary_stats (some ([] : List Record)) = none :=
  C4_count_consistency [recOk] (by simp)

/-- C1 counterexample: in the temporal page's period-over-period
computation, a previous-year slice with zero rows makes the variation
silently the number 0 — not a distinguishable UndefinedResult marker. -/
theorem C1_counterexample :
    variation_accidents [recOk] [] = 0 := by
  simp [variation_accidents]

/-- C1 amended: no period-over-period computation raises a division
fault, but the two pages disagree on the zero-previous case: the temporal
page's guarded variations silently return the number 0 when the previous
slice is empty, while the financial page's unguarded float division
returns a non-finite value (±inf/NaN, modelled `none`) — a distinguishable
marker that is not 0 — when the previous-period sum is 0. -/
theorem C1_zero_previous (current_data previous_df : List Record)
    (hms : optSum (previous_df.map (fun r => r.medical_cost)) = 0) :
    variation_accidents current_data [] = 0 ∧
    variation_fatalities current_data [] = 0 ∧
    kpi_variation_medical current_data previous_df = none ∧
    kpi_variation_medical current_data previous_df ≠ some 0 := by
  refine ⟨by simp [variation_accidents], by simp [variation_fatalities, optSum], ?_, ?_⟩
  · simp [kpi_variation_medical, hms]
  · simp [kpi_variation_medical, hms]

/-- C1 witness: the amended theorem at a concrete dataset whose previous
period is empty (so both the previous count and the previous sums are
zero). -/
theorem C1_zero_previous_witness :
    variation_accidents [recOk] [] = 0 ∧
    variation_fatalities [recOk] [] = 0 ∧
    kpi_variation_medical [recOk] [] = none ∧
    kpi_variation_medical [recOk] [] ≠ some 0 :=
  C1_zero_previous [recOk] [] rfl

/-- C2 counterexample: a one-row dataset whose Emergency Response Time is
the missing sentinel is emptied by the neutral filter specification — the
always-applied response-time range stage drops the row — so the identity
law fails on such datasets. -/
theorem C2_counterexample :
    filter_data (some [recNoRT]) neutral_filters = some [] ∧
    ([] : List Record) ≠ [recNoRT] := by
  refine ⟨?_, by simp⟩
  rw [filter_data_some]
  norm_num [rowPred, neutral_filters, sevPred, vehPred, casPred, respPred,
    pedPred, cycPred, causePred, inRange, optAdd, recNoRT, recOk,
    List.filter]

/-- C2 amended: the neutral specification is the identity on every
dataset whose rows all pass the three always-applied range stages —
vehicles in [1,4], injuries+fatalities present and in [0,23], response
time present and in [5,60]; rows with a missing or out-of-range value in
one of those numerically compared columns are dropped even by the neutral
specification. -/
theorem C2_identity_on_clean_rows (rows : List Record)
    (h : ∀ r ∈ rows, vehPred (1, 4) r = true ∧ casPred (0, 23) r = true ∧
      respPred (5, 60) r = true) :
    filter_data (some rows) neutral_filters = some rows := by
  rw [filter_data_some]
  refine congrArg some (List.filter_eq_self.mpr ?_)
  intro r hr
  obtain ⟨h1, h2, h3⟩ := h r hr
  simp [rowPred, neutral_filters, h1, h2, h3]

/-- C2 witness: the amended identity at a concrete in-range one-row
dataset. -/
theorem C2_identity_witness :
    filter_data (some [recOk]) neutral_filters = some [recOk] := by
  refine C2_identity_on_clean_rows [recOk] ?_
  intro r hr
  rw [List.mem_singleton] at hr
  subst hr
  refine ⟨?_, ?_, ?_⟩ <;>
    norm_num [vehPred, casPred, respPred, inRange, optAdd, recOk]

/-- Pandas division by a zero cell never yields a finite number,
whatever the numerator cell is. -/
theorem pdDiv_zero (a : Option ℚ) : pdDiv a (some 0) = none := by
  cases a <;> simp [pdDiv]

/-- C6: in the rates table, a row with zero vehicles involved gets the
non-numeric UndefinedResult marker (`none`, the model of the ±inf/NaN the
float division produces) as both its fatality rate and its injury rate —
in particular neither is the number 0, and no fault is raised. -/
theorem C6_rate_undefined (rows : List Record) (i : Nat)
    (hi : i < rows.length)
    (hveh : (rows.get ⟨i, hi⟩).number_of_vehicles_involved = some 0) :
    ∃ rr, (calculate_rates (some rows)).get? i = some rr ∧
      rr.fatality_rate = none ∧ rr.injury_rate = none ∧
      rr.fatality_rate ≠ some 0 ∧ rr.injury_rate ≠ some 0 := by
  have hne : rows.isEmpty = false := by
    cases rows with
    | nil => simp at hi
    | cons a t => rfl
  simp only [List.get_eq_getElem] at hveh
  refine ⟨rateRow rows.length (rows.get ⟨i, hi⟩), ?_, ?_, ?_, ?_, ?_⟩
  · simp [calculate_rates, hne, List.get?_eq_getElem?, List.getElem?_map,
      List.getElem?_eq_getElem hi]
  · simp [rateRow, hveh, pdDiv_zero]
  · simp [rateRow, hveh, pdDiv_zero]
  · simp [rateRow, hveh, pdDiv_zero]
  · simp [rateRow, hveh, pdDiv_zero]

/-- C6 witness: the theorem at a concrete one-row dataset whose row has
zero vehicles involved. -/
theorem C6_rate_undefined_witness :
    ∃ rr, (calculate_rates (some [recVeh0])).get? 0 = some rr ∧
      rr.fatality_rate = none ∧ rr.injury_rate = none ∧
      rr.fatality_rate ≠ some 0 ∧ rr.injury_rate ≠ some 0 :=
  C6_rate_undefined [recVeh0] 0 (by simp) rfl

/-- C7: every row of the rates table has
`severity_index = (fatalities * 5 + injuries) / len(df)`: the denominator
is the row count of the whole (filtered) dataframe, not any per-row
quantity, so each row's index changes with the filtered set's size. -/
theorem C7_severity_index (rows : List Record) (i : Nat)
    (hi : i < rows.length) (fr jr : ℚ)
    (hf : (rows.get ⟨i, hi⟩).number_of_fatalities = some fr)
    (hj : (rows.get ⟨i, hi⟩).number_of_injuries = some jr) :
    ∃ rr, (calculate_rates (some rows)).get? i = some rr ∧
      rr.severity_index = some ((fr * 5 + jr) / (rows.length : ℚ)) := by
  have hne : rows.isEmpty = false := by
    cases rows with
    | nil => simp at hi
    | cons a t => rfl
  simp only [List.get_eq_getElem] at hf hj
  refine ⟨rateRow rows.length (rows.get ⟨i, hi⟩), ?_, ?_⟩
  · simp [calculate_rates, hne, List.get?_eq_getElem?, List.getElem?_map,
      List.getElem?_eq_getElem hi]
  · simp [rateRow, hf, hj]

/-- C7 witness: the theorem at a concrete one-row dataset (1 fatality,
3 injuries, dataset size 1). -/
theorem C7_severity_index_witness :
    ∃ rr, (calculate_rates (some [recOk])).get? 0 = some rr ∧
      rr.severity_index =
        some (((1 : ℚ) * 5 + 3) / (([recOk] : List Record).length : ℚ)) :=
  C7_severity_index [recOk] 0 (by simp) 1 3 rfl rfl

/-- C8: missing-value propagation.  A row whose Emergency Response Time
cell is missing never satisfies the response-time range predicate, and a
row whose injuries+fatalities sum is missing never satisfies the
casualties range predicate, for any bounds; missing cells are excluded
from the sums of `calculate_summary_stats` (appending an all-missing-
fatalities row leaves the fatalities total unchanged); and a non-empty
dataframe whose response-time column is entirely missing gets the
distinguishable no-data mean (`none`), not the number 0. -/
theorem C8_missing_propagation (lo hi lo2 hi2 : ℚ) (r : Record)
    (rows : List Record)
    (hrt : r.emergency_response_time = none)
    (hcas : optAdd r.number_of_injuries r.number_of_fatalities = none)
    (hne : rows ≠ [])
    (hall : ∀ x ∈ rows, x.emergency_response_time = none) :
    respPred (lo, hi) r = false ∧
    casPred (lo2, hi2) r = false ∧
    (∃ s, calculate_summary_stats (some rows) = some s ∧
      s.avg_response_time = none ∧ s.avg_response_time ≠ some 0) ∧
    (∀ x : Record, x.number_of_fatalities = none →
      optSum ((rows ++ [x]).map fun q => q.number_of_fatalities) =
      optSum (rows.map fun q => q.number_of_fatalities)) := by
  have hnil : rows.isEmpty = false := by
    cases rows with
    | nil => exact absurd rfl hne
    | cons a t => rfl
  refine ⟨by simp [respPred, inRange, hrt], by simp [casPred, inRange, hcas],
    ?_, ?_⟩
  · have hcol : (rows.map fun x => x.emergency_response_time).filterMap id
        = [] := by
      rw [List.filterMap_eq_nil_iff]
      intro a ha
      rw [List.mem_map] at ha
      obtain ⟨x, hx, rfl⟩ := ha
      exact hall x hx
    have hcal : calculate_summary_stats (some rows) = some
        { total_accidents := rows.length
          total_fatalities := optSum (rows.map fun q => q.number_of_fatalities)
          total_injuries := optSum (rows.map fun q => q.number_of_injuries)
          avg_response_time :=
            optMean (rows.map fun q => q.emergency_response_time)
          total_economic_loss := optSum (rows.map fun q => q.economic_loss) } := by
      simp [calculate_summary_stats, hnil]
    refine ⟨_, hcal, ?_, ?_⟩ <;> simp [optMean, hcol]
  · intro x hx
    simp [optSum, List.filterMap_append, hx]

/-- C8 witness: the theorem at a concrete all-missing row and a concrete
one-row dataframe whose response-time column is entirely missing. -/
theorem C8_missing_propagation_witness :
    respPred (5, 60) recAllMissing = false ∧
    casPred (0, 23) recAllMissing = false ∧
    (∃ s, calculate_summary_stats (some [recAllMissing]) = some s ∧
      s.avg_response_time = none ∧ s.avg_response_time ≠ some 0) ∧
    (∀ x : Record, x.number_of_fatalities = none →
      optSum (([recAllMissing] ++ [x]).map fun q => q.number_of_fatalities) =
      optSum (([recAllMissing] : List Record).map
        fun q => q.number_of_fatalities)) := by
  refine C8_missing_propagation 5 60 0 23 recAllMissing [recAllMissing]
    rfl rfl (by simp) ?_
  intro x hx
  rw [List.mem_singleton] at hx
  subst hx
  rfl

/-- C5 counterexample: adding an element to a non-empty severity set is
not a restriction — with the one-row "Minor" dataset, the spec with
severity {"Severe"} keeps 0 rows while the spec obtained from it by
adding "Minor" keeps 1 row, so the filtered result grew. -/
theorem C5_counterexample :
    optLen (filter_data (some [recMinor])
      { neutral_filters with severity := ["Severe", "Minor"] }) = 1 ∧
    optLen (filter_data (some [recMinor])
      { neutral_filters with severity := ["Severe"] }) = 0 := by
  constructor <;>
    · rw [filter_data_some]
      norm_num [optLen, rowPred, neutral_filters, sevPred, vehPred, casPred,
        respPred, pedPred, cycPred, causePred, inRange, optAdd, recMinor,
        recOk, List.filter]
      try rfl

/-- C5 amended: restricting exactly one field of a specification in a way
that strengthens its predicate — narrowing one of the three ranges,
switching a participant toggle from false to true, or adding elements to
a previously *empty* set field — never increases the number of filtered
rows.  (Adding to a non-empty set field is excluded: it weakens the
`isin` constraint and can grow the result.) -/
theorem C5_monotonic (rows : List Record) (f f' : Filters)
    (h : Restricted f f') :
    optLen (filter_data (some rows) f') ≤ optLen (filter_data (some rows) f) := by
  rw [filter_data_some, filter_data_some]
  show (rows.filter (rowPred f')).length ≤ (rows.filter (rowPred f)).length
  apply length_filter_le_of_imp
  intro r _ hq
  rcases h with ⟨hs, s, rfl⟩ | ⟨v, hv, rfl⟩ | ⟨hp, rfl⟩ | ⟨hc, rfl⟩ |
    ⟨c, hc, rfl⟩ | ⟨t, ht, rfl⟩ | ⟨hz, c, rfl⟩ <;>
    simp only [rowPred, Bool.and_eq_true] at hq ⊢ <;>
    obtain ⟨⟨⟨⟨⟨⟨h1, h2⟩, h3⟩, h4⟩, h5⟩, h6⟩, h7⟩ := hq
  · exact ⟨⟨⟨⟨⟨⟨by simp [hs], h2⟩, h3⟩, h4⟩, h5⟩, h6⟩, h7⟩
  · exact ⟨⟨⟨⟨⟨⟨h1, inRange_mono hv _ h2⟩, h3⟩, h4⟩, h5⟩, h6⟩, h7⟩
  · exact ⟨⟨⟨⟨⟨⟨h1, h2⟩, by simp [hp]⟩, h4⟩, h5⟩, h6⟩, h7⟩
  · exact ⟨⟨⟨⟨⟨⟨h1, h2⟩, h3⟩, by simp [hc]⟩, h5⟩, h6⟩, h7⟩
  · exact ⟨⟨⟨⟨⟨⟨h1, h2⟩, h3⟩, h4⟩, inRange_mono hc _ h5⟩, h6⟩, h7⟩
  · exact ⟨⟨⟨⟨⟨⟨h1, h2⟩, h3⟩, h4⟩, h5⟩, inRange_mono ht _ h6⟩, h7⟩
  · exact ⟨⟨⟨⟨⟨⟨h1, h2⟩, h3⟩, h4⟩, h5⟩, h6⟩, by simp [hz]⟩

/-- C5 witness: switching the pedestrians toggle on (a one-field
restriction of the neutral spec) does not grow the result on a concrete
one-row dataset. -/
theorem C5_monotonic_witness :
    optLen (filter_data (some [recOk])
      { neutral_filters with pedestrians := true }) ≤
    optLen (filter_data (some [recOk]) neutral_filters) :=
  C5_monotonic [recOk] neutral_filters
    { neutral_filters with pedestrians := true }
    (Or.inr (Or.inr (Or.inl ⟨rfl, rfl⟩)))
